import Mathlib

/-!
Shallow embedding of the KMZ Gfx license-key service (`src/server.js`, current
implementation at the `index.js` segment, and the legacy variant in
`src/unnamed/part_000`).

Timestamps are modelled as integers (JavaScript epoch milliseconds); the SQL
`CURRENT_TIMESTAMP` and JavaScript `new Date()` are both passed in as a `now`
parameter.  The PostgreSQL store is modelled as three lists of rows (`keys`,
`key_activations`, `key_logs`).  Each HTTP handler becomes a pure function
from `now`, the database state and the request fields to the new database
state and an abstract response.
-/

namespace KmzGfx

/-- A row of the `keys` table (schema created by `initDatabase` in the
current `server.js`: key_string UNIQUE, duration_hours, max_devices,
used_devices, created_at, expires_at, status). -/
structure KeyRow where
  id : Nat
  key_string : String
  duration_hours : Int
  max_devices : Nat
  used_devices : Nat
  created_at : Int
  expires_at : Int
  status : String
deriving Repr, DecidableEq

/-- A row of the `key_activations` table; `UNIQUE (key_id, device_id)`. -/
structure ActivationRow where
  key_id : Nat
  device_id : String
  ip_address : String
deriving Repr, DecidableEq

/-- A row of the `key_logs` audit table. -/
structure LogRow where
  key_id : Nat
  action : String
  ip_address : String
  user_agent : String
deriving Repr, DecidableEq

/-- The whole database. -/
structure DbState where
  keys : List KeyRow
  activations : List ActivationRow
  logs : List LogRow
deriving Repr, DecidableEq

/-- `key.trim().toUpperCase()` applied to the requested key string before
lookup, written over the character list so that it evaluates by kernel
reduction. -/
def normalizeKey (s : String) : String :=
  ⟨(((s.data.dropWhile Char.isWhitespace).reverse.dropWhile Char.isWhitespace).reverse).map
    Char.toUpper⟩

/-- `SELECT * FROM keys WHERE key_string = $1` (first matching row). -/
def findKeyByString (st : DbState) (s : String) : Option KeyRow :=
  st.keys.find? (fun k => k.key_string == s)

/-- `SELECT * FROM key_activations WHERE key_id = $1 AND device_id = $2`
(whether a row exists). -/
def findActivation (st : DbState) (kid : Nat) (dev : String) : Bool :=
  st.activations.any (fun a => a.key_id == kid && a.device_id == dev)

/-- `SELECT COUNT(*) FROM key_activations WHERE key_id = $1`. -/
def countActivations (st : DbState) (kid : Nat) : Nat :=
  (st.activations.filter (fun a => a.key_id == kid)).length

/-- `INSERT INTO key_logs (key_id, action, ip_address, user_agent) VALUES …`
(`logKeyActivity`; its try/catch swallows store errors, so the model treats
the append as total). -/
def logKeyActivity (st : DbState) (kid : Nat) (action ip ua : String) : DbState :=
  { st with logs := st.logs ++ [⟨kid, action, ip, ua⟩] }

/-- `UPDATE keys SET status = 'expired' WHERE id = $1` — the lazy-expiry
write used by both `/activateKey` and `/verifyKey`; note it carries no
condition on the current status. -/
def setKeyExpired (st : DbState) (kid : Nat) : DbState :=
  { st with keys := st.keys.map (fun k => if k.id == kid then { k with status := "expired" } else k) }

/-- `UPDATE keys SET used_devices = used_devices + 1 WHERE id = $1`. -/
def incrementUsedDevices (st : DbState) (kid : Nat) : DbState :=
  { st with keys := st.keys.map (fun k => if k.id == kid then { k with used_devices := k.used_devices + 1 } else k) }

/-- `INSERT INTO key_activations (key_id, device_id, ip_address) VALUES …`. -/
def insertActivation (st : DbState) (kid : Nat) (dev ip : String) : DbState :=
  { st with activations := st.activations ++ [⟨kid, dev, ip⟩] }

/-- Abstract response of `POST /activateKey`. -/
inductive ActivateResult where
  | missingFields
  | invalidDeviceId
  | keyNotFound
  | keyExpired
  | keyNotActive
  | deviceLimitReached
  | reactivated (expires_at : Int) (duration_hours : Int)
  | activated (expires_at : Int) (duration_hours : Int) (devices_used : Nat) (max_devices : Nat)
  | conflictDuplicate
  | internalError
deriving Repr, DecidableEq

/-- The HTTP status code the handler attaches to each `ActivateResult`. -/
def ActivateResult.httpStatus : ActivateResult → Nat
  | .missingFields => 400
  | .invalidDeviceId => 400
  | .keyNotFound => 404
  | .keyExpired => 400
  | .keyNotActive => 400
  | .deviceLimitReached => 400
  | .reactivated _ _ => 200
  | .activated _ _ _ _ => 200
  | .conflictDuplicate => 409
  | .internalError => 500

/-- The `success` field of the JSON body for each `ActivateResult`. -/
def ActivateResult.isSuccess : ActivateResult → Bool
  | .reactivated _ _ => true
  | .activated _ _ _ _ => true
  | _ => false

/-- `POST /activateKey` of the current `server.js`: lazy-expiry check first
(marking the key expired and logging `activation_expired`), then the status
check, the idempotent already-activated path, the device-limit check, and
finally the transactional insert-plus-increment. -/
def activateKey (now : Int) (st : DbState) (key device_id ip ua : String) :
    DbState × ActivateResult :=
  if key = "" ∨ device_id = "" then (st, .missingFields)
  else if device_id.length < 5 ∨ device_id.length > 255 then (st, .invalidDeviceId)
  else
    match findKeyByString st (normalizeKey key) with
    | none => (st, .keyNotFound)
    | some keyData =>
      if now > keyData.expires_at then
        (logKeyActivity (setKeyExpired st keyData.id) keyData.id "activation_expired" ip ua,
         .keyExpired)
      else if keyData.status ≠ "active" then (st, .keyNotActive)
      else if findActivation st keyData.id device_id then
        (logKeyActivity st keyData.id "reactivated" ip ua,
         .reactivated keyData.expires_at keyData.duration_hours)
      else
        let currentDevices := countActivations st keyData.id
        if currentDevices ≥ keyData.max_devices then (st, .deviceLimitReached)
        else
          (logKeyActivity
            (incrementUsedDevices (insertActivation st keyData.id device_id ip) keyData.id)
            keyData.id "activated" ip ua,
           .activated keyData.expires_at keyData.duration_hours (currentDevices + 1)
             keyData.max_devices)

/-- `POST /activateKey` of the legacy variant (`src/unnamed/part_000`): the
active/inactive status check comes before the expiry check, the expiry branch
neither marks the key expired nor logs, and the insert does not increment
`used_devices`. -/
def activateKeyLegacy (now : Int) (st : DbState) (key device_id ip ua : String) :
    DbState × ActivateResult :=
  if key = "" ∨ device_id = "" then (st, .missingFields)
  else if device_id.length < 5 ∨ device_id.length > 255 then (st, .invalidDeviceId)
  else
    match findKeyByString st (normalizeKey key) with
    | none => (st, .keyNotFound)
    | some keyData =>
      if keyData.status ≠ "active" then (st, .keyNotActive)
      else if now > keyData.expires_at then (st, .keyExpired)
      else if findActivation st keyData.id device_id then
        (logKeyActivity st keyData.id "reactivated" ip ua,
         .reactivated keyData.expires_at keyData.duration_hours)
      else
        let currentDevices := countActivations st keyData.id
        if currentDevices ≥ keyData.max_devices then (st, .deviceLimitReached)
        else
          (logKeyActivity (insertActivation st keyData.id device_id ip)
            keyData.id "activated" ip ua,
           .activated keyData.expires_at keyData.duration_hours (currentDevices + 1)
             keyData.max_devices)

/-- `POST /activateKey` under the race the catch block is written for: all
reads (`SELECT`, existing-activation check, `COUNT`) see the stale snapshot
`stale`, while the transactional insert executes against the true state
`actual`.  If `actual` already holds the (key, device) pair the `INSERT`
violates `UNIQUE (key_id, device_id)`, the transaction rolls back and the
rethrown error's code `23505` is mapped by the catch block to the HTTP 409
`Device already activated with this key` response. -/
def activateKeyRaced (now : Int) (stale actual : DbState) (key device_id ip ua : String) :
    DbState × ActivateResult :=
  if key = "" ∨ device_id = "" then (actual, .missingFields)
  else if device_id.length < 5 ∨ device_id.length > 255 then (actual, .invalidDeviceId)
  else
    match findKeyByString stale (normalizeKey key) with
    | none => (actual, .keyNotFound)
    | some keyData =>
      if now > keyData.expires_at then
        (logKeyActivity (setKeyExpired actual keyData.id) keyData.id "activation_expired" ip ua,
         .keyExpired)
      else if keyData.status ≠ "active" then (actual, .keyNotActive)
      else if findActivation stale keyData.id device_id then
        (logKeyActivity actual keyData.id "reactivated" ip ua,
         .reactivated keyData.expires_at keyData.duration_hours)
      else
        let currentDevices := countActivations stale keyData.id
        if currentDevices ≥ keyData.max_devices then (actual, .deviceLimitReached)
        else if findActivation actual keyData.id device_id then
          (actual, .conflictDuplicate)
        else
          (logKeyActivity
            (incrementUsedDevices (insertActivation actual keyData.id device_id ip) keyData.id)
            keyData.id "activated" ip ua,
           .activated keyData.expires_at keyData.duration_hours (currentDevices + 1)
             keyData.max_devices)

/-- Abstract response of `POST /verifyKey`. -/
inductive VerifyResult where
  | missingFields
  | notFound
  | expiredInvalid (expires_at : Int) (devices_used : Nat) (max_devices : Nat)
  | outcome (valid : Bool) (expires_at : Int) (status : String)
      (devices_used : Nat) (max_devices : Nat)
deriving Repr, DecidableEq

/-- The `valid` field of the JSON body of a `/verifyKey` response (absent,
hence false, on the 400 missing-fields error). -/
def VerifyResult.isValid : VerifyResult → Bool
  | .outcome v _ _ _ _ => v
  | _ => false

/-- `POST /verifyKey` of the current `server.js`: lookup with the device's
activation left-joined in, lazy expiry (unconditional status write plus an
`auto_expired` log), then the pure validity conjunction and a `verified` /
`verification_failed` log. -/
def verifyKey (now : Int) (st : DbState) (key device_id ip ua : String) :
    DbState × VerifyResult :=
  if key = "" ∨ device_id = "" then (st, .missingFields)
  else
    match findKeyByString st (normalizeKey key) with
    | none => (st, .notFound)
    | some keyData =>
      let device_activated := findActivation st keyData.id device_id
      if now > keyData.expires_at then
        let st1 := logKeyActivity (setKeyExpired st keyData.id) keyData.id "auto_expired" ip ua
        (st1, .expiredInvalid keyData.expires_at (countActivations st1 keyData.id)
          keyData.max_devices)
      else
        let isValid := keyData.status == "active" && device_activated
          && !(decide (now > keyData.expires_at))
        let st1 := logKeyActivity st keyData.id
          (if isValid then "verified" else "verification_failed") ip ua
        (st1, .outcome isValid keyData.expires_at keyData.status
          (countActivations st1 keyData.id) keyData.max_devices)

/-- Abstract response of `POST /generateKey` (admin auth is an external
collaborator and is not modelled). -/
inductive GenResult where
  | invalidDuration
  | generated (key : String) (expires_at : Int) (duration_hours : Int) (max_devices : Nat)
  | exhausted
  | internalError
deriving Repr, DecidableEq

/-- The HTTP status code of each `GenResult`: the post-loop
`Failed to generate unique key` response and the generic catch are both 500. -/
def GenResult.httpStatus : GenResult → Nat
  | .invalidDuration => 400
  | .generated _ _ _ _ => 200
  | .exhausted => 500
  | .internalError => 500

/-- `SELECT`-free view of the `key_string` uniqueness constraint: whether an
`INSERT INTO keys` with this string raises error `23505`. -/
def keyStringExists (st : DbState) (s : String) : Bool :=
  st.keys.any (fun k => k.key_string == s)

/-- Fresh `SERIAL` id for an inserted key row. -/
def freshKeyId (st : DbState) : Nat :=
  (st.keys.map KeyRow.id).foldr max 0 + 1

/-- The retry loop of `POST /generateKey` (`for (let i = 0; i < 5; i++)`).
`gens i` is the string the random generator produces on attempt `i`; `fail i`
models a non-uniqueness store error thrown by attempt `i`'s `INSERT`, which
propagates to the catch block (HTTP 500) instead of being retried.  A
uniqueness collision (`23505`) moves to the next attempt; exhausting the five
attempts yields the 500 `Failed to generate unique key` response. -/
def generateKeyLoop (now : Int) (gens : Nat → String) (fail : Nat → Bool)
    (duration_hours : Int) (max_devices : Nat) (status : String) :
    List Nat → DbState → DbState × GenResult
  | [], st => (st, .exhausted)
  | i :: rest, st =>
    let ks := gens i
    if fail i then (st, .internalError)
    else if keyStringExists st ks then
      generateKeyLoop now gens fail duration_hours max_devices status rest st
    else
      let newKey : KeyRow :=
        ⟨freshKeyId st, ks, duration_hours, max_devices, 0, now,
          now + duration_hours * 3600000, status⟩
      ({ st with keys := st.keys ++ [newKey] },
       .generated ks (now + duration_hours * 3600000) duration_hours max_devices)

/-- `POST /generateKey` of the current `server.js`: duration validation
(`!duration_hours || duration_hours <= 0`), then up to five insert attempts
(`for (let i = 0; i < 5; i++)`). -/
def generateKeyEndpoint (now : Int) (gens : Nat → String) (fail : Nat → Bool)
    (st : DbState) (duration_hours : Int) (max_devices : Nat) (status : String) :
    DbState × GenResult :=
  if duration_hours ≤ 0 then (st, .invalidDuration)
  else generateKeyLoop now gens fail duration_hours max_devices status [0, 1, 2, 3, 4] st

/-- Abstract response of `PUT /admin/keys/:id`. -/
inductive UpdateResult where
  | noFields
  | notFound
  | updated
deriving Repr, DecidableEq

/-- The per-row effect of the `UPDATE keys SET …` built by
`PUT /admin/keys/:id`: an optional duration change (which also rebases
`expires_at` to `CURRENT_TIMESTAMP + INTERVAL '1 hour' * duration`), an
optional status change and an optional max_devices change. -/
def applyKeyUpdate (now : Int) (duration_hours : Option Int) (status : Option String)
    (max_devices : Option Nat) (k : KeyRow) : KeyRow :=
  let k1 := match duration_hours with
    | some d => { k with duration_hours := d, expires_at := now + d * 3600000 }
    | none => k
  let k2 := match status with
    | some s => { k1 with status := s }
    | none => k1
  match max_devices with
  | some m => { k2 with max_devices := m }
  | none => k2

/-- `PUT /admin/keys/:id`. -/
def updateKeyEndpoint (now : Int) (st : DbState) (id : Nat)
    (duration_hours : Option Int) (status : Option String) (max_devices : Option Nat) :
    DbState × UpdateResult :=
  if duration_hours = none ∧ status = none ∧ max_devices = none then (st, .noFields)
  else if st.keys.any (fun k => k.id == id) then
    ({ st with keys := st.keys.map (fun k =>
        if k.id == id then applyKeyUpdate now duration_hours status max_devices k else k) },
     .updated)
  else (st, .notFound)

/-- `DELETE /admin/keys/:id`: one transaction deleting the key's logs, its
activations and the key row; the boolean reports whether the key existed. -/
def deleteKeyEndpoint (st : DbState) (id : Nat) : DbState × Bool :=
  ({ keys := st.keys.filter (fun k => ¬ k.id == id),
     activations := st.activations.filter (fun a => ¬ a.key_id == id),
     logs := st.logs.filter (fun l => ¬ l.key_id == id) },
   st.keys.any (fun k => k.id == id))

/-- The per-row effect of the Janitor's
`UPDATE keys SET status = 'expired' WHERE expires_at < CURRENT_TIMESTAMP AND
status = 'active'`. -/
def sweepKey (now : Int) (k : KeyRow) : KeyRow :=
  if k.expires_at < now ∧ k.status = "active" then { k with status := "expired" } else k

/-- `cleanupExpiredKeys`, the hourly Janitor sweep. -/
def cleanupExpiredKeys (now : Int) (st : DbState) : DbState :=
  { st with keys := st.keys.map (sweepKey now) }

/-- `POST /admin/cleanup`: hard-deletes every key past `expires_at`,
regardless of status; `key_activations` and `key_logs` rows of deleted keys
go with them via `ON DELETE CASCADE`. -/
def adminCleanup (now : Int) (st : DbState) : DbState :=
  let deletedIds := (st.keys.filter (fun k => k.expires_at < now)).map KeyRow.id
  { keys := st.keys.filter (fun k => ¬ k.expires_at < now),
    activations := st.activations.filter (fun a => ¬ deletedIds.contains a.key_id),
    logs := st.logs.filter (fun l => ¬ deletedIds.contains l.key_id) }

/-- The cached counter agrees with the true activation count for every key
row. -/
def counterConsistent (st : DbState) : Prop :=
  ∀ k ∈ st.keys, k.used_devices = countActivations st k.id

/-- The `UNIQUE (key_id, device_id)` constraint: no two activation rows share
the same (key, device) pair. -/
def activationPairsUnique (st : DbState) : Prop :=
  (st.activations.map (fun a => (a.key_id, a.device_id))).Nodup

/-- The foreign key `key_activations.key_id REFERENCES keys(id)`. -/
def activationsReferenceKeys (st : DbState) : Prop :=
  ∀ a ∈ st.activations, ∃ k ∈ st.keys, a.key_id = k.id

/-- A sequence of `/activateKey` calls, each with its own clock reading and
request fields, applied to the store in order. -/
def activateSeq : List (Int × String × String × String × String) → DbState → DbState
  | [], st => st
  | (now, key, dev, ip, ua) :: rs, st => activateSeq rs (activateKey now st key dev ip ua).1

/-! ### Concrete store fixtures used by the witnesses and counterexamples -/

/-- A key at its device limit: `max_devices = 2` with two activations. -/
def stLimit : DbState :=
  { keys := [⟨1, "KEYX", 24, 2, 2, 0, 100, "active"⟩],
    activations := [⟨1, "device-A", "ip"⟩, ⟨1, "device-B", "ip"⟩],
    logs := [] }

/-- An active key `KEYX` already activated by `device-A`. -/
def stReact : DbState :=
  { keys := [⟨1, "KEYX", 24, 10, 1, 0, 100, "active"⟩],
    activations := [⟨1, "device-A", "ip"⟩],
    logs := [] }

/-- An administratively disabled key whose `expires_at` is also in the past. -/
def stInactiveExpired : DbState :=
  { keys := [⟨1, "KEYX", 24, 10, 0, 0, 100, "inactive"⟩],
    activations := [],
    logs := [] }

/-- An expired key whose stored status is still `active`. -/
def stActiveExpired : DbState :=
  { keys := [⟨1, "KEYX", 24, 10, 0, 0, 100, "active"⟩],
    activations := [],
    logs := [] }

/-- The snapshot an `/activateKey` request read before a concurrent request
for the same device committed: no activation yet. -/
def stRaceStale : DbState :=
  { keys := [⟨1, "KEYX", 24, 10, 0, 0, 100, "active"⟩],
    activations := [],
    logs := [] }

/-- The true store at insert time in the same race: the concurrent request
already inserted `(1, device-A)`. -/
def stRaceActual : DbState :=
  { keys := [⟨1, "KEYX", 24, 10, 1, 0, 100, "active"⟩],
    activations := [⟨1, "device-A", "ip"⟩],
    logs := [] }

/-- A fresh active key with remaining capacity and no activations. -/
def stFresh : DbState :=
  { keys := [⟨1, "KEYX", 24, 10, 0, 0, 100, "active"⟩],
    activations := [],
    logs := [] }

/-! ### Helper lemmas about the state transformers -/

theorem countActivations_logKeyActivity (st : DbState) (kid : Nat) (a i u : String) (k : Nat) :
    countActivations (logKeyActivity st kid a i u) k = countActivations st k := rfl

theorem countActivations_setKeyExpired (st : DbState) (kid k : Nat) :
    countActivations (setKeyExpired st kid) k = countActivations st k := rfl

theorem countActivations_incrementUsedDevices (st : DbState) (kid k : Nat) :
    countActivations (incrementUsedDevices st kid) k = countActivations st k := rfl

theorem countActivations_insertActivation (st : DbState) (kid : Nat) (dev ip : String) (k : Nat) :
    countActivations (insertActivation st kid dev ip) k =
      countActivations st k + (if kid = k then 1 else 0) := by
  simp only [countActivations, insertActivation, List.filter_append, List.length_append]
  by_cases h : kid = k <;> simp [h]

theorem keys_logKeyActivity (st : DbState) (kid : Nat) (a i u : String) :
    (logKeyActivity st kid a i u).keys = st.keys := rfl

theorem activations_logKeyActivity (st : DbState) (kid : Nat) (a i u : String) :
    (logKeyActivity st kid a i u).activations = st.activations := rfl

theorem activations_setKeyExpired (st : DbState) (kid : Nat) :
    (setKeyExpired st kid).activations = st.activations := rfl

theorem activations_incrementUsedDevices (st : DbState) (kid : Nat) :
    (incrementUsedDevices st kid).activations = st.activations := rfl

theorem keys_insertActivation (st : DbState) (kid : Nat) (dev ip : String) :
    (insertActivation st kid dev ip).keys = st.keys := rfl

theorem findKeyByString_mem {st : DbState} {s : String} {kd : KeyRow}
    (h : findKeyByString st s = some kd) : kd ∈ st.keys :=
  List.mem_of_find?_eq_some h

/-- Exhaustive description of the database states `POST /activateKey` can
leave behind, one disjunct per write path of the handler. -/
theorem activateKey_state_cases (now : Int) (st : DbState) (key dev ip ua : String) :
    (activateKey now st key dev ip ua).1 = st ∨
    (∃ kd, findKeyByString st (normalizeKey key) = some kd ∧
      (activateKey now st key dev ip ua).1 =
        logKeyActivity (setKeyExpired st kd.id) kd.id "activation_expired" ip ua) ∨
    (∃ kd, findKeyByString st (normalizeKey key) = some kd ∧
      (activateKey now st key dev ip ua).1 = logKeyActivity st kd.id "reactivated" ip ua) ∨
    (∃ kd, findKeyByString st (normalizeKey key) = some kd ∧
      findActivation st kd.id dev = false ∧
      countActivations st kd.id < kd.max_devices ∧
      (activateKey now st key dev ip ua).1 =
        logKeyActivity (incrementUsedDevices (insertActivation st kd.id dev ip) kd.id)
          kd.id "activated" ip ua) := by
  unfold activateKey
  split
  · exact Or.inl rfl
  split
  · exact Or.inl rfl
  split
  · exact Or.inl rfl
  rename_i kd hfind
  split
  · exact Or.inr (Or.inl ⟨kd, hfind, rfl⟩)
  split
  · exact Or.inl rfl
  split
  · rename_i hact
    exact Or.inr (Or.inr (Or.inl ⟨kd, hfind, rfl⟩))
  rename_i hact
  dsimp only
  split
  · exact Or.inl rfl
  rename_i hlt
  refine Or.inr (Or.inr (Or.inr ⟨kd, hfind, ?_, ?_, rfl⟩))
  · exact Bool.eq_false_iff.mpr hact
  · exact Nat.lt_of_not_le hlt

/-- When the device-limit check fires, the handler returns 400
`Key has reached maximum device limit` and leaves the store untouched. -/
theorem activateKey_limit_reached {now : Int} {st : DbState} {key dev : String} (ip ua : String)
    {kd : KeyRow}
    (hfind : findKeyByString st (normalizeKey key) = some kd)
    (hkey : ¬(key = "" ∨ dev = ""))
    (hlen : ¬(dev.length < 5 ∨ dev.length > 255))
    (hexp : ¬ now > kd.expires_at)
    (hstat : kd.status = "active")
    (hact : findActivation st kd.id dev = false)
    (hge : countActivations st kd.id ≥ kd.max_devices) :
    activateKey now st key dev ip ua = (st, .deviceLimitReached) := by
  simp only [activateKey, hfind]
  simp [hkey, hlen, hexp, hstat, hact, hge]

/-- One `/activateKey` call never pushes a key's activation count above its
`max_devices` bound. -/
theorem activateKey_count_le {now : Int} {st : DbState} {key dev ip ua : String}
    {kid maxd : Nat}
    (hmax : ∀ k ∈ st.keys, k.id = kid → k.max_devices = maxd)
    (hle : countActivations st kid ≤ maxd) :
    countActivations (activateKey now st key dev ip ua).1 kid ≤ maxd := by
  rcases activateKey_state_cases now st key dev ip ua with
    h | ⟨kd, hfind, h⟩ | ⟨kd, hfind, h⟩ | ⟨kd, hfind, hact, hlt, h⟩ <;> rw [h]
  · exact hle
  · rw [countActivations_logKeyActivity, countActivations_setKeyExpired]; exact hle
  · rw [countActivations_logKeyActivity]; exact hle
  · rw [countActivations_logKeyActivity, countActivations_incrementUsedDevices,
      countActivations_insertActivation]
    by_cases hkk : kd.id = kid
    · have hm := hmax kd (findKeyByString_mem hfind) hkk
      rw [hkk, hm] at hlt
      simp only [if_pos hkk]
      omega
    · simp only [if_neg hkk]
      exact hle

/-- One `/activateKey` call never pushes a key's `used_devices` counter above
its `max_devices` bound, given the counter starts consistent with the true
activation count. -/
theorem activateKey_used_le {now : Int} {st : DbState} {key dev ip ua : String}
    {kid maxd : Nat}
    (hmax : ∀ k ∈ st.keys, k.id = kid → k.max_devices = maxd)
    (hcons : ∀ k ∈ st.keys, k.id = kid → k.used_devices = countActivations st kid)
    (hle : countActivations st kid ≤ maxd) :
    ∀ k' ∈ (activateKey now st key dev ip ua).1.keys, k'.id = kid → k'.used_devices ≤ maxd := by
  intro k' hk' hid
  rcases activateKey_state_cases now st key dev ip ua with
    h | ⟨kd, hfind, h⟩ | ⟨kd, hfind, h⟩ | ⟨kd, hfind, hact, hlt, h⟩ <;> rw [h] at hk'
  · rw [hcons k' hk' hid]; exact hle
  · simp only [keys_logKeyActivity, setKeyExpired, List.mem_map] at hk'
    obtain ⟨k, hk, rfl⟩ := hk'
    by_cases hkk : k.id = kd.id
    · simp only [beq_iff_eq, if_pos hkk] at hid ⊢
      rw [hcons k hk hid]; exact hle
    · simp only [beq_iff_eq, if_neg hkk] at hid ⊢
      rw [hcons k hk hid]; exact hle
  · rw [keys_logKeyActivity] at hk'
    rw [hcons k' hk' hid]; exact hle
  · simp only [keys_logKeyActivity, incrementUsedDevices, insertActivation, List.mem_map] at hk'
    obtain ⟨k, hk, rfl⟩ := hk'
    by_cases hkk : k.id = kd.id
    · simp only [beq_iff_eq, if_pos hkk] at hid ⊢
      have hkdkid : kd.id = kid := by rw [← hkk]; exact hid
      have hm := hmax kd (findKeyByString_mem hfind) hkdkid
      rw [hkdkid, hm] at hlt
      have := hcons k hk hid
      omega
    · simp only [beq_iff_eq, if_neg hkk] at hid ⊢
      rw [hcons k hk hid]; exact hle

/-- `/activateKey` preserves the `UNIQUE (key_id, device_id)` invariant: the
insert only runs after the existing-activation check came back empty. -/
theorem activateKey_pairs_unique {now : Int} {st : DbState} {key dev ip ua : String}
    (hu : activationPairsUnique st) :
    activationPairsUnique (activateKey now st key dev ip ua).1 := by
  rcases activateKey_state_cases now st key dev ip ua with
    h | ⟨kd, hfind, h⟩ | ⟨kd, hfind, h⟩ | ⟨kd, hfind, hact, hlt, h⟩ <;>
    unfold activationPairsUnique at hu ⊢ <;> rw [h]
  · exact hu
  · rw [activations_logKeyActivity, activations_setKeyExpired]; exact hu
  · rw [activations_logKeyActivity]; exact hu
  · rw [activations_logKeyActivity, activations_incrementUsedDevices]
    simp only [insertActivation, List.map_append, List.map_cons, List.map_nil]
    rw [List.nodup_append]
    refine ⟨hu, List.nodup_singleton _, ?_⟩
    intro p hp hps
    simp only [List.mem_singleton] at hps
    subst hps
    simp only [List.mem_map] at hp
    obtain ⟨a, ha, hpa⟩ := hp
    simp only [findActivation, List.any_eq_false, Bool.and_eq_true, beq_iff_eq] at hact
    have := hact a ha
    injection hpa with h1 h2
    exact this ⟨h1, h2⟩

/-- `/activateKey` never changes a key's id or `max_devices`. -/
theorem activateKey_max_preserved {now : Int} {st : DbState} {key dev ip ua : String}
    {kid maxd : Nat}
    (hmax : ∀ k ∈ st.keys, k.id = kid → k.max_devices = maxd) :
    ∀ k' ∈ (activateKey now st key dev ip ua).1.keys, k'.id = kid → k'.max_devices = maxd := by
  intro k' hk' hid
  rcases activateKey_state_cases now st key dev ip ua with
    h | ⟨kd, hfind, h⟩ | ⟨kd, hfind, h⟩ | ⟨kd, hfind, hact, hlt, h⟩ <;> rw [h] at hk'
  · exact hmax k' hk' hid
  · simp only [keys_logKeyActivity, setKeyExpired, List.mem_map] at hk'
    obtain ⟨k, hk, rfl⟩ := hk'
    by_cases hkk : k.id = kd.id
    · simp only [beq_iff_eq, if_pos hkk] at hid ⊢
      exact hmax k hk hid
    · simp only [beq_iff_eq, if_neg hkk] at hid ⊢
      exact hmax k hk hid
  · rw [keys_logKeyActivity] at hk'
    exact hmax k' hk' hid
  · simp only [keys_logKeyActivity, incrementUsedDevices, insertActivation, List.mem_map] at hk'
    obtain ⟨k, hk, rfl⟩ := hk'
    by_cases hkk : k.id = kd.id
    · simp only [beq_iff_eq, if_pos hkk] at hid ⊢
      exact hmax k hk hid
    · simp only [beq_iff_eq, if_neg hkk] at hid ⊢
      exact hmax k hk hid

/-- No sequence of `/activateKey` calls pushes the activation count of a key
past its `max_devices`. -/
theorem activateSeq_count_le {kid maxd : Nat} :
    ∀ (rs : List (Int × String × String × String × String)) (st : DbState),
      (∀ k ∈ st.keys, k.id = kid → k.max_devices = maxd) →
      countActivations st kid ≤ maxd →
      countActivations (activateSeq rs st) kid ≤ maxd
  | [], _, _, hle => hle
  | (now, key, dev, ip, ua) :: rs, st, hmax, hle =>
    activateSeq_count_le rs (activateKey now st key dev ip ua).1
      (activateKey_max_preserved hmax) (activateKey_count_le hmax hle)

/-- C1: for every key, the distinct-device activation count and the
`used_devices` counter never exceed `max_devices`: an Activate call for a
not-yet-activated device fails with the device-limit error when the current
count is at least `max_devices` (leaving the store unchanged), a single
Activate call preserves the count bound and the counter bound (the latter
given a counter consistent with the true count), Activate preserves the
distinctness of activation rows, and no sequence of Activate calls can push
the count past `max_devices`. -/
theorem claim_C1_device_limit (now : Int) (st : DbState) (key dev ip ua : String)
    (kid maxd : Nat) (rs : List (Int × String × String × String × String))
    (hmax : ∀ k ∈ st.keys, k.id = kid → k.max_devices = maxd) :
    (∀ kd, findKeyByString st (normalizeKey key) = some kd →
      ¬(key = "" ∨ dev = "") → ¬(dev.length < 5 ∨ dev.length > 255) →
      ¬ now > kd.expires_at → kd.status = "active" →
      findActivation st kd.id dev = false →
      countActivations st kd.id ≥ kd.max_devices →
      activateKey now st key dev ip ua = (st, .deviceLimitReached)) ∧
    (countActivations st kid ≤ maxd →
      countActivations (activateKey now st key dev ip ua).1 kid ≤ maxd) ∧
    ((∀ k ∈ st.keys, k.id = kid → k.used_devices = countActivations st kid) →
      countActivations st kid ≤ maxd →
      ∀ k' ∈ (activateKey now st key dev ip ua).1.keys, k'.id = kid →
        k'.used_devices ≤ maxd) ∧
    (activationPairsUnique st → activationPairsUnique (activateKey now st key dev ip ua).1) ∧
    (countActivations st kid ≤ maxd → countActivations (activateSeq rs st) kid ≤ maxd) := by
  refine ⟨?_, ?_, ?_, ?_, ?_⟩
  · intro kd hfind hk hlen hexp hstat hact hge
    exact activateKey_limit_reached ip ua hfind hk hlen hexp hstat hact hge
  · exact fun hle => activateKey_count_le hmax hle
  · exact fun hcons hle => activateKey_used_le hmax hcons hle
  · exact activateKey_pairs_unique
  · exact fun hle => activateSeq_count_le rs st hmax hle

/-- Witness for C1 at a concrete store: key 1 has `max_devices = 2` and two
activated devices, so activating `device-C` fails with the device-limit
error, and the bounds hold after the call and after a further sequence of
calls. -/
theorem claim_C1_device_limit_witness :
    activateKey 5 stLimit "KEYX" "device-C" "ip2" "ua" = (stLimit, .deviceLimitReached) ∧
    countActivations (activateKey 5 stLimit "KEYX" "device-C" "ip2" "ua").1 1 ≤ 2 ∧
    activationPairsUnique (activateKey 5 stLimit "KEYX" "device-C" "ip2" "ua").1 ∧
    countActivations
      (activateSeq [(5, "KEYX", "device-C", "ip2", "ua"), (6, "KEYX", "device-D", "ip3", "ua")]
        stLimit) 1 ≤ 2 := by
  have h := claim_C1_device_limit 5 stLimit "KEYX" "device-C" "ip2" "ua" 1 2
    [(5, "KEYX", "device-C", "ip2", "ua"), (6, "KEYX", "device-D", "ip3", "ua")]
    (by decide)
  exact ⟨h.1 ⟨1, "KEYX", 24, 2, 2, 0, 100, "active"⟩ (by decide) (by decide) (by decide)
      (by decide) (by decide) (by decide) (by decide),
    h.2.1 (by decide), h.2.2.2.1 (by unfold activationPairsUnique; decide),
    h.2.2.2.2 (by decide)⟩

/-- Shared shape of the idempotent already-activated path of `/activateKey`:
it only appends a `reactivated` log row and returns the 200 success body. -/
theorem activateKey_reactivated_eq {now : Int} {st : DbState} {key dev : String} (ip ua : String)
    {kd : KeyRow}
    (hfind : findKeyByString st (normalizeKey key) = some kd)
    (hkey : ¬(key = "" ∨ dev = ""))
    (hlen : ¬(dev.length < 5 ∨ dev.length > 255))
    (hexp : ¬ now > kd.expires_at)
    (hstat : kd.status = "active")
    (hact : findActivation st kd.id dev = true) :
    activateKey now st key dev ip ua =
      (logKeyActivity st kd.id "reactivated" ip ua,
       .reactivated kd.expires_at kd.duration_hours) := by
  simp only [activateKey, hfind]
  simp [hkey, hlen, hexp, hstat, hact]

/-- Shared shape of the lazy-expiry path of `/activateKey`: for a key past
`expires_at` the handler marks it expired, logs `activation_expired` and
fails with the 400 expired error, with no condition on the stored status. -/
theorem activateKey_expired_eq {now : Int} {st : DbState} {key dev : String} (ip ua : String)
    {kd : KeyRow}
    (hfind : findKeyByString st (normalizeKey key) = some kd)
    (hkey : ¬(key = "" ∨ dev = ""))
    (hlen : ¬(dev.length < 5 ∨ dev.length > 255))
    (hexp : now > kd.expires_at) :
    activateKey now st key dev ip ua =
      (logKeyActivity (setKeyExpired st kd.id) kd.id "activation_expired" ip ua,
       .keyExpired) := by
  simp only [activateKey, hfind]
  simp [hkey, hlen, hexp]

/-- C2: the already-activated path of Activate is idempotent per
(key, device): it adds no activation row, leaves every `keys` row (hence
`used_devices`) unchanged, appends exactly one `reactivated` log entry, and
returns the 200 success body with the key's validity info. -/
theorem claim_C2_activate_idempotent (now : Int) (st : DbState) (key dev ip ua : String)
    (kd : KeyRow)
    (hfind : findKeyByString st (normalizeKey key) = some kd)
    (hkey : ¬(key = "" ∨ dev = ""))
    (hlen : ¬(dev.length < 5 ∨ dev.length > 255))
    (hexp : ¬ now > kd.expires_at)
    (hstat : kd.status = "active")
    (hact : findActivation st kd.id dev = true) :
    (activateKey now st key dev ip ua).1.activations = st.activations ∧
    (activateKey now st key dev ip ua).1.keys = st.keys ∧
    (activateKey now st key dev ip ua).1.logs = st.logs ++ [⟨kd.id, "reactivated", ip, ua⟩] ∧
    (activateKey now st key dev ip ua).2 = .reactivated kd.expires_at kd.duration_hours ∧
    ((activateKey now st key dev ip ua).2).isSuccess = true := by
  rw [activateKey_reactivated_eq ip ua hfind hkey hlen hexp hstat hact]
  exact ⟨rfl, rfl, rfl, rfl, rfl⟩

/-- Witness for C2: `device-A` is already activated on key 1, and a second
Activate for it changes nothing but the log and succeeds. -/
theorem claim_C2_activate_idempotent_witness :
    (activateKey 5 stReact "KEYX" "device-A" "ip2" "ua").1.activations = stReact.activations ∧
    (activateKey 5 stReact "KEYX" "device-A" "ip2" "ua").1.keys = stReact.keys ∧
    (activateKey 5 stReact "KEYX" "device-A" "ip2" "ua").1.logs =
      stReact.logs ++ [⟨1, "reactivated", "ip2", "ua"⟩] ∧
    (activateKey 5 stReact "KEYX" "device-A" "ip2" "ua").2 = .reactivated 100 24 ∧
    ((activateKey 5 stReact "KEYX" "device-A" "ip2" "ua").2).isSuccess = true :=
  claim_C2_activate_idempotent 5 stReact "KEYX" "device-A" "ip2" "ua"
    ⟨1, "KEYX", 24, 10, 1, 0, 100, "active"⟩ (by decide) (by decide) (by decide)
    (by decide) (by decide) (by decide)

/-- C3 as stated is false: in the legacy `/activateKey`
(`src/unnamed/part_000`) the status check precedes the expiry check, so key 1
(status `inactive`, `expires_at = 100`) at time 200 fails with the
`Key is not active` error instead of `Key has expired`, and the state is
untouched (no expired mark, no `activation_expired` log). -/
theorem claim_C3_counterexample :
    (activateKeyLegacy 200 stInactiveExpired "KEYX" "device-A" "ip" "ua").2 = .keyNotActive ∧
    (200 : Int) > 100 ∧
    ActivateResult.keyNotActive ≠ ActivateResult.keyExpired ∧
    (activateKeyLegacy 200 stInactiveExpired "KEYX" "device-A" "ip" "ua").1 =
      stInactiveExpired := by
  refine ⟨by decide, by decide, by decide, by decide⟩

/-- C3 amended: in the current `server.js` Activate the lazy-expiry check
precedes the status check — a key past `expires_at` always fails with the
expired error, is marked expired and logged, no matter the stored status; in
the legacy variant the status check comes first, so a non-active key fails
with `Key is not active` regardless of expiry. -/
theorem claim_C3_lazy_expiry_first (now : Int) (st : DbState) (key dev ip ua : String)
    (kd : KeyRow)
    (hfind : findKeyByString st (normalizeKey key) = some kd)
    (hkey : ¬(key = "" ∨ dev = ""))
    (hlen : ¬(dev.length < 5 ∨ dev.length > 255)) :
    (now > kd.expires_at →
      activateKey now st key dev ip ua =
        (logKeyActivity (setKeyExpired st kd.id) kd.id "activation_expired" ip ua,
         .keyExpired) ∧
      (activateKey now st key dev ip ua).2 ≠ .keyNotActive) ∧
    (kd.status ≠ "active" →
      activateKeyLegacy now st key dev ip ua = (st, .keyNotActive)) := by
  constructor
  · intro hexp
    have h := activateKey_expired_eq ip ua hfind hkey hlen hexp
    exact ⟨h, by rw [h]; simp⟩
  · intro hstat
    simp only [activateKeyLegacy, hfind]
    simp [hkey, hlen, hstat]

/-- Witness for C3: the expired-but-inactive key of the counterexample goes
through the current Activate's expiry path. -/
theorem claim_C3_lazy_expiry_first_witness :
    (activateKey 200 stInactiveExpired "KEYX" "device-A" "ip" "ua" =
      (logKeyActivity (setKeyExpired stInactiveExpired 1) 1 "activation_expired" "ip" "ua",
       .keyExpired) ∧
     (activateKey 200 stInactiveExpired "KEYX" "device-A" "ip" "ua").2 ≠ .keyNotActive) ∧
    ((activateKeyLegacy 200 stInactiveExpired "KEYX" "device-A" "ip" "ua") =
      (stInactiveExpired, .keyNotActive)) :=
  have h := claim_C3_lazy_expiry_first 200 stInactiveExpired "KEYX" "device-A" "ip" "ua"
    ⟨1, "KEYX", 24, 10, 0, 0, 100, "inactive"⟩ (by decide) (by decide) (by decide)
  ⟨h.1 (by decide), h.2 (by decide)⟩

/-- C4 as stated is false: when the insert of `/activateKey` hits the
`UNIQUE (key_id, device_id)` constraint (the same device raced in from two
requests), the catch block maps error `23505` to HTTP 409 with
`success:false`, while the idempotent already-activated path returns HTTP 200
with `success:true` — the two responses differ. -/
theorem claim_C4_counterexample :
    (activateKeyRaced 5 stRaceStale stRaceActual "KEYX" "device-A" "ip" "ua").2 =
      .conflictDuplicate ∧
    ActivateResult.conflictDuplicate.httpStatus = 409 ∧
    ActivateResult.conflictDuplicate.isSuccess = false ∧
    (activateKey 5 stRaceActual "KEYX" "device-A" "ip" "ua").2 = .reactivated 100 24 ∧
    (ActivateResult.reactivated 100 24).httpStatus = 200 ∧
    (ActivateResult.reactivated 100 24).isSuccess = true ∧
    ActivateResult.conflictDuplicate ≠ .reactivated 100 24 := by
  refine ⟨by decide, rfl, rfl, by decide, rfl, rfl, by decide⟩

/-- C4 amended: a uniqueness-constraint failure on the activation insert is
caught and mapped to its own  409 `Device already activated with this key`
conflict response (`success:false`), rather than to the generic 500 hard
error — but it is not identical to the idempotent path's 200 success. -/
theorem claim_C4_unique_violation_conflict (now : Int) (stale actual : DbState)
    (key dev ip ua : String) (kd : KeyRow)
    (hfind : findKeyByString stale (normalizeKey key) = some kd)
    (hkey : ¬(key = "" ∨ dev = ""))
    (hlen : ¬(dev.length < 5 ∨ dev.length > 255))
    (hexp : ¬ now > kd.expires_at)
    (hstat : kd.status = "active")
    (hactStale : findActivation stale kd.id dev = false)
    (hlt : countActivations stale kd.id < kd.max_devices)
    (hactActual : findActivation actual kd.id dev = true) :
    activateKeyRaced now stale actual key dev ip ua = (actual, .conflictDuplicate) ∧
    ActivateResult.conflictDuplicate.httpStatus = 409 ∧
    ActivateResult.conflictDuplicate.isSuccess = false ∧
    ActivateResult.conflictDuplicate ≠ .internalError ∧
    ActivateResult.conflictDuplicate ≠ .reactivated kd.expires_at kd.duration_hours := by
  refine ⟨?_, rfl, rfl, by simp, by simp⟩
  simp only [activateKeyRaced, hfind]
  simp [hkey, hlen, hexp, hstat, hactStale, hactActual, Nat.not_le.mpr hlt]

/-- Witness for C4 at the concrete raced stores. -/
theorem claim_C4_unique_violation_conflict_witness :
    activateKeyRaced 5 stRaceStale stRaceActual "KEYX" "device-A" "ip" "ua" =
      (stRaceActual, .conflictDuplicate) ∧
    ActivateResult.conflictDuplicate.httpStatus = 409 ∧
    ActivateResult.conflictDuplicate.isSuccess = false ∧
    ActivateResult.conflictDuplicate ≠ .internalError ∧
    ActivateResult.conflictDuplicate ≠ .reactivated 100 24 :=
  claim_C4_unique_violation_conflict 5 stRaceStale stRaceActual "KEYX" "device-A" "ip" "ua"
    ⟨1, "KEYX", 24, 10, 0, 0, 100, "active"⟩ (by decide) (by decide) (by decide)
    (by decide) (by decide) (by decide) (by decide) (by decide)

/-- Shape of the lazy-expiry path of `/verifyKey`: unconditional expired
mark, an `auto_expired` log entry, and a `valid:false` body with
status `expired`. -/
theorem verifyKey_expired_eq {now : Int} {st : DbState} {key dev : String} (ip ua : String)
    {kd : KeyRow}
    (hkey : ¬(key = "" ∨ dev = ""))
    (hfind : findKeyByString st (normalizeKey key) = some kd)
    (hexp : now > kd.expires_at) :
    verifyKey now st key dev ip ua =
      (logKeyActivity (setKeyExpired st kd.id) kd.id "auto_expired" ip ua,
       .expiredInvalid kd.expires_at (countActivations st kd.id) kd.max_devices) := by
  simp only [verifyKey, hfind]
  simp [hkey, hexp]
  rfl

/-- Shape of the non-expired path of `/verifyKey`: one log entry whose action
reflects the validity verdict, and the `valid` conjunction of the source. -/
theorem verifyKey_outcome_eq {now : Int} {st : DbState} {key dev : String} (ip ua : String)
    {kd : KeyRow}
    (hkey : ¬(key = "" ∨ dev = ""))
    (hfind : findKeyByString st (normalizeKey key) = some kd)
    (hexp : ¬ now > kd.expires_at) :
    verifyKey now st key dev ip ua =
      (logKeyActivity st kd.id
        (if (kd.status == "active" && findActivation st kd.id dev
            && !(decide (now > kd.expires_at))) = true then "verified"
         else "verification_failed") ip ua,
       .outcome (kd.status == "active" && findActivation st kd.id dev
           && !(decide (now > kd.expires_at)))
         kd.expires_at kd.status (countActivations st kd.id) kd.max_devices) := by
  simp only [verifyKey, hfind]
  simp [hkey, hexp]
  rfl

/-- C5: for a found key, Verify answers `valid:true` exactly when the status
is `active`, an activation row exists for this device, and the key is not
past `expires_at`; Verify never touches the `key_activations` table, so a
device that never activated always gets `valid:false`. -/
theorem claim_C5_verify_validity (now : Int) (st : DbState) (key dev ip ua : String)
    (kd : KeyRow)
    (hkey : ¬(key = "" ∨ dev = ""))
    (hfind : findKeyByString st (normalizeKey key) = some kd) :
    (verifyKey now st key dev ip ua).1.activations = st.activations ∧
    (((verifyKey now st key dev ip ua).2).isValid = true ↔
      (kd.status = "active" ∧ findActivation st kd.id dev = true ∧ ¬ now > kd.expires_at)) ∧
    (findActivation st kd.id dev = false →
      ((verifyKey now st key dev ip ua).2).isValid = false) := by
  by_cases hexp : now > kd.expires_at
  · rw [verifyKey_expired_eq ip ua hkey hfind hexp]
    refine ⟨rfl, ?_, fun _ => rfl⟩
    simp [VerifyResult.isValid, hexp]
  · rw [verifyKey_outcome_eq ip ua hkey hfind hexp]
    refine ⟨rfl, ?_, ?_⟩
    · simp [VerifyResult.isValid, hexp]
    · intro hact
      simp [VerifyResult.isValid, hact]

/-- Witness for C5: on the fixture key, the never-activated `device-B` gets
`valid:false` even though capacity remains, while the validity iff holds. -/
theorem claim_C5_verify_validity_witness :
    (verifyKey 5 stReact "KEYX" "device-B" "ip" "ua").1.activations = stReact.activations ∧
    (((verifyKey 5 stReact "KEYX" "device-B" "ip" "ua").2).isValid = true ↔
      ("active" = "active" ∧ findActivation stReact 1 "device-B" = true ∧ ¬ (5 : Int) > 100)) ∧
    (findActivation stReact 1 "device-B" = false →
      ((verifyKey 5 stReact "KEYX" "device-B" "ip" "ua").2).isValid = false) :=
  claim_C5_verify_validity 5 stReact "KEYX" "device-B" "ip" "ua"
    ⟨1, "KEYX", 24, 10, 1, 0, 100, "active"⟩ (by decide) (by decide)

/-- C9: for a found, non-expired key, Verify leaves the `keys` rows and the
`key_activations` rows untouched; its only write is appending exactly one
`key_logs` entry. -/
theorem claim_C9_verify_frame (now : Int) (st : DbState) (key dev ip ua : String)
    (kd : KeyRow)
    (hkey : ¬(key = "" ∨ dev = ""))
    (hfind : findKeyByString st (normalizeKey key) = some kd)
    (hexp : ¬ now > kd.expires_at) :
    (verifyKey now st key dev ip ua).1.keys = st.keys ∧
    (verifyKey now st key dev ip ua).1.activations = st.activations ∧
    ∃ e : LogRow, (verifyKey now st key dev ip ua).1.logs = st.logs ++ [e] := by
  rw [verifyKey_outcome_eq ip ua hkey hfind hexp]
  exact ⟨rfl, rfl, ⟨_, rfl⟩⟩

/-- Witness for C9 on the fixture store. -/
theorem claim_C9_verify_frame_witness :
    (verifyKey 5 stReact "KEYX" "device-A" "ip" "ua").1.keys = stReact.keys ∧
    (verifyKey 5 stReact "KEYX" "device-A" "ip" "ua").1.activations = stReact.activations :=
  have h := claim_C9_verify_frame 5 stReact "KEYX" "device-A" "ip" "ua"
    ⟨1, "KEYX", 24, 10, 1, 0, 100, "active"⟩ (by decide) (by decide) (by decide)
  ⟨h.1, h.2.1⟩

/-- The Janitor's per-row update is idempotent. -/
theorem sweepKey_idem (now : Int) (k : KeyRow) :
    sweepKey now (sweepKey now k) = sweepKey now k := by
  unfold sweepKey
  by_cases h : k.expires_at < now ∧ k.status = "active" <;> simp [h]

/-- C6 as stated is false: the lazy-expiry write of `/activateKey`
(`UPDATE keys SET status = 'expired' WHERE id = $1`) carries no condition on
the current status, so on key 1 (status `inactive`, expired) it still writes
`expired` — an expiry write performed while the current status is not
`active`. -/
theorem claim_C6_counterexample :
    (∀ k ∈ stInactiveExpired.keys, k.status = "inactive") ∧
    ("inactive" : String) ≠ "active" ∧
    (activateKey 200 stInactiveExpired "KEYX" "device-A" "ip" "ua").1.keys =
      [⟨1, "KEYX", 24, 10, 0, 0, 100, "expired"⟩] := by
  refine ⟨by decide, by decide, by decide⟩

/-- C6 amended: status moves only toward the terminal value `expired` and
every expiry write is idempotent; the Janitor's sweep transitions only
currently-`active` rows, while the lazy-expiry writes in Activate and Verify
set `expired` unconditionally whenever `expires_at` is past, whatever the
stored status (so also `inactive` keys get moved to `expired` there). -/
theorem claim_C6_expiry_writes :
    (∀ (now : Int) (k : KeyRow), sweepKey now k = k ∨
      (k.status = "active" ∧ sweepKey now k = { k with status := "expired" })) ∧
    (∀ (now : Int) (st : DbState),
      cleanupExpiredKeys now (cleanupExpiredKeys now st) = cleanupExpiredKeys now st) ∧
    (∀ (st : DbState) (kid : Nat),
      setKeyExpired (setKeyExpired st kid) kid = setKeyExpired st kid) ∧
    (∀ (st : DbState) (kid : Nat), ∀ k' ∈ (setKeyExpired st kid).keys,
      k' ∈ st.keys ∨ k'.status = "expired") ∧
    (∀ (now : Int) (st : DbState) (key dev ip ua : String) (kd : KeyRow),
      findKeyByString st (normalizeKey key) = some kd →
      ¬(key = "" ∨ dev = "") → ¬(dev.length < 5 ∨ dev.length > 255) →
      now > kd.expires_at →
      (activateKey now st key dev ip ua).1 =
        logKeyActivity (setKeyExpired st kd.id) kd.id "activation_expired" ip ua) ∧
    (∀ (now : Int) (st : DbState) (key dev ip ua : String) (kd : KeyRow),
      findKeyByString st (normalizeKey key) = some kd →
      ¬(key = "" ∨ dev = "") →
      now > kd.expires_at →
      (verifyKey now st key dev ip ua).1 =
        logKeyActivity (setKeyExpired st kd.id) kd.id "auto_expired" ip ua) := by
  refine ⟨?_, ?_, ?_, ?_, ?_, ?_⟩
  · intro now k
    unfold sweepKey
    by_cases h : k.expires_at < now ∧ k.status = "active"
    · exact Or.inr ⟨h.2, by simp [h]⟩
    · exact Or.inl (by simp [h])
  · intro now st
    simp only [cleanupExpiredKeys, List.map_map]
    congr 1
    exact List.map_congr_left fun k _ => sweepKey_idem now k
  · intro st kid
    simp only [setKeyExpired, List.map_map]
    congr 1
    refine List.map_congr_left fun k _ => ?_
    by_cases h : k.id = kid <;> simp [h]
  · intro st kid k' hk'
    simp only [setKeyExpired, List.mem_map] at hk'
    obtain ⟨k, hk, rfl⟩ := hk'
    by_cases h : k.id = kid
    · exact Or.inr (by simp [h])
    · exact Or.inl (by simp [h]; exact hk)
  · intro now st key dev ip ua kd hfind hkey hlen hexp
    rw [activateKey_expired_eq ip ua hfind hkey hlen hexp]
  · intro now st key dev ip ua kd hfind hkey hexp
    rw [verifyKey_expired_eq ip ua hkey hfind hexp]

/-- Witness for C6: both lazy-expiry writes fire on the concrete
inactive-but-expired key. -/
theorem claim_C6_expiry_writes_witness :
    (activateKey 200 stInactiveExpired "KEYX" "device-A" "ip" "ua").1 =
      logKeyActivity (setKeyExpired stInactiveExpired 1) 1 "activation_expired" "ip" "ua" ∧
    (verifyKey 200 stInactiveExpired "KEYX" "device-A" "ip" "ua").1 =
      logKeyActivity (setKeyExpired stInactiveExpired 1) 1 "auto_expired" "ip" "ua" :=
  ⟨claim_C6_expiry_writes.2.2.2.2.1 200 stInactiveExpired "KEYX" "device-A" "ip" "ua"
      ⟨1, "KEYX", 24, 10, 0, 0, 100, "inactive"⟩ (by decide) (by decide) (by decide) (by decide),
   claim_C6_expiry_writes.2.2.2.2.2 200 stInactiveExpired "KEYX" "device-A" "ip" "ua"
      ⟨1, "KEYX", 24, 10, 0, 0, 100, "inactive"⟩ (by decide) (by decide) (by decide)⟩

/-- C7 as stated is false: when all five generation attempts collide, the
issuance endpoint answers the 500 `Failed to generate unique key` response,
not HTTP 409. -/
theorem claim_C7_counterexample :
    (generateKeyEndpoint 0 (fun _ => "KEYX") (fun _ => false) stFresh 24 10 "active").2 =
      .exhausted ∧
    GenResult.exhausted.httpStatus = 500 ∧
    (500 : Nat) ≠ 409 ∧
    (generateKeyEndpoint 0 (fun _ => "KEYX") (fun _ => false) stFresh 24 10 "active").1 =
      stFresh := by
  refine ⟨by decide, rfl, by decide, by decide⟩

/-- C7 amended: issuance retries generation on a key-string uniqueness
conflict for exactly five bounded attempts; exhausting them fails with the
500 `Failed to generate unique key` response (not 409), a collision on one
attempt is followed by a successful insert on the next fresh string, and a
non-uniqueness store error is not retried but surfaces as the generic 500. -/
theorem claim_C7_generation_retry (now : Int) (gens : Nat → String) (fail : Nat → Bool)
    (st : DbState) (d : Int) (maxd : Nat) (stt : String)
    (hd : ¬ d ≤ 0) :
    ((∀ i < 5, fail i = false ∧ keyStringExists st (gens i) = true) →
      generateKeyEndpoint now gens fail st d maxd stt = (st, .exhausted) ∧
      GenResult.exhausted.httpStatus = 500) ∧
    (fail 0 = false → keyStringExists st (gens 0) = true →
      fail 1 = false → keyStringExists st (gens 1) = false →
      (generateKeyEndpoint now gens fail st d maxd stt).2 =
        .generated (gens 1) (now + d * 3600000) d maxd) ∧
    (fail 0 = true →
      generateKeyEndpoint now gens fail st d maxd stt = (st, .internalError)) := by
  refine ⟨?_, ?_, ?_⟩
  · intro hall
    refine ⟨?_, rfl⟩
    have h0 := hall 0 (by omega)
    have h1 := hall 1 (by omega)
    have h2 := hall 2 (by omega)
    have h3 := hall 3 (by omega)
    have h4 := hall 4 (by omega)
    simp [generateKeyEndpoint, if_neg hd, generateKeyLoop,
      h0.1, h0.2, h1.1, h1.2, h2.1, h2.2, h3.1, h3.2, h4.1, h4.2]
  · intro hf0 hc0 hf1 hc1
    simp [generateKeyEndpoint, if_neg hd, generateKeyLoop, hf0, hc0, hf1, hc1]
  · intro hf0
    simp [generateKeyEndpoint, if_neg hd, generateKeyLoop, hf0]

/-- Witness for C7: with every generated string colliding the result is the
500 exhaustion; with a fresh second string the second attempt succeeds; with
a store error on the first attempt the result is the generic 500 at once. -/
theorem claim_C7_generation_retry_witness :
    (generateKeyEndpoint 0 (fun _ => "KEYX") (fun _ => false) stFresh 24 10 "active" =
      (stFresh, .exhausted) ∧ GenResult.exhausted.httpStatus = 500) ∧
    (generateKeyEndpoint 0 (fun i => if i = 0 then "KEYX" else "FRESH") (fun _ => false)
        stFresh 24 10 "active").2 = .generated "FRESH" (0 + 24 * 3600000) 24 10 ∧
    generateKeyEndpoint 0 (fun _ => "KEYX") (fun _ => true) stFresh 24 10 "active" =
      (stFresh, .internalError) :=
  ⟨(claim_C7_generation_retry 0 (fun _ => "KEYX") (fun _ => false) stFresh 24 10 "active"
      (by decide)).1 (by decide),
   (claim_C7_generation_retry 0 (fun i => if i = 0 then "KEYX" else "FRESH") (fun _ => false)
      stFresh 24 10 "active" (by decide)).2.1 (by decide) (by decide) (by decide) (by decide),
   (claim_C7_generation_retry 0 (fun _ => "KEYX") (fun _ => true) stFresh 24 10 "active"
      (by decide)).2.2 (by decide)⟩

/-- C8: an admin update supplying `duration_hours` rebases `expires_at` to
the update time plus the new duration — the key's original `created_at` plays
no part in the recomputed value. -/
theorem claim_C8_duration_rebase (now : Int) (st : DbState) (id : Nat) (d : Int)
    (su : Option String) (mu : Option Nat)
    (hex : st.keys.any (fun k => k.id == id) = true) :
    ∀ k' ∈ (updateKeyEndpoint now st id (some d) su mu).1.keys, k'.id = id →
      k'.expires_at = now + d * 3600000 ∧ k'.duration_hours = d := by
  intro k' hk' hid
  unfold updateKeyEndpoint at hk'
  rw [if_neg (by simp), if_pos hex] at hk'
  simp only [List.mem_map] at hk'
  obtain ⟨k, hk, rfl⟩ := hk'
  by_cases hkk : k.id = id
  · simp only [beq_iff_eq, if_pos hkk]
    rcases su with _ | s <;> rcases mu with _ | m <;> simp [applyKeyUpdate]
  · simp only [beq_iff_eq, if_neg hkk] at hid
    exact absurd hid hkk

/-- Witness for C8: updating key 1 (created at time 0) with
`duration_hours = 48` at time 1000 rebases `expires_at` to
`1000 + 48 * 3600000`, not `0 + 48 * 3600000`. -/
theorem claim_C8_duration_rebase_witness :
    ((⟨1, "KEYX", 48, 10, 1, 0, 1000 + 48 * 3600000, "active"⟩ : KeyRow).expires_at =
        1000 + 48 * 3600000 ∧
      (⟨1, "KEYX", 48, 10, 1, 0, 1000 + 48 * 3600000, "active"⟩ : KeyRow).duration_hours = 48) ∧
    (updateKeyEndpoint 1000 stReact 1 (some 48) none none).1.keys =
      [⟨1, "KEYX", 48, 10, 1, 0, 1000 + 48 * 3600000, "active"⟩] ∧
    (1000 : Int) + 48 * 3600000 ≠ 0 + 48 * 3600000 :=
  ⟨claim_C8_duration_rebase 1000 stReact 1 48 none none (by decide)
      ⟨1, "KEYX", 48, 10, 1, 0, 1000 + 48 * 3600000, "active"⟩ (by decide) (by decide),
   by decide, by decide⟩

/-! ### Counter-consistency helpers for C10 -/

/-- A keys-only rewrite that keeps each row's id and `used_devices` preserves
counter consistency. -/
theorem counterConsistent_map {st : DbState} {f : KeyRow → KeyRow}
    (hid : ∀ k, (f k).id = k.id) (hused : ∀ k, (f k).used_devices = k.used_devices)
    (hcc : counterConsistent st) :
    counterConsistent { st with keys := st.keys.map f } := by
  intro k' hk'
  simp only [List.mem_map] at hk'
  obtain ⟨k, hk, rfl⟩ := hk'
  rw [hid, hused]
  exact hcc k hk

/-- Appending a log entry preserves counter consistency. -/
theorem counterConsistent_log {st : DbState} {kid : Nat} {a i u : String}
    (hcc : counterConsistent st) :
    counterConsistent (logKeyActivity st kid a i u) :=
  fun k hk => hcc k hk

/-- The unconditional expired mark preserves counter consistency. -/
theorem counterConsistent_setKeyExpired {st : DbState} {kid : Nat}
    (hcc : counterConsistent st) :
    counterConsistent (setKeyExpired st kid) := by
  refine counterConsistent_map ?_ ?_ hcc <;> intro k <;> by_cases h : k.id = kid <;> simp [h]

/-- The transactional activation insert plus counter increment preserves
counter consistency: both sides of the equation move by one for the affected
key. -/
theorem counterConsistent_insertIncrement {st : DbState} {kid : Nat} {dev ip : String}
    (hcc : counterConsistent st) :
    counterConsistent (incrementUsedDevices (insertActivation st kid dev ip) kid) := by
  intro k' hk'
  simp only [incrementUsedDevices, insertActivation, List.mem_map] at hk'
  obtain ⟨k, hk, rfl⟩ := hk'
  by_cases h : k.id = kid
  · simp only [beq_iff_eq, if_pos h]
    have hcount : countActivations (incrementUsedDevices (insertActivation st kid dev ip) kid)
        k.id = countActivations st k.id + 1 := by
      rw [countActivations_incrementUsedDevices, countActivations_insertActivation,
        if_pos h.symm]
    rw [hcount, hcc k hk]
  · simp only [beq_iff_eq, if_neg h]
    have hcount : countActivations (incrementUsedDevices (insertActivation st kid dev ip) kid)
        k.id = countActivations st k.id := by
      rw [countActivations_incrementUsedDevices, countActivations_insertActivation,
        if_neg (fun hc => h hc.symm), Nat.add_zero]
    rw [hcount, hcc k hk]

/-- Every element of a list of naturals is bounded by its `foldr max 0`. -/
theorem mem_le_foldr_max : ∀ {l : List Nat} {x : Nat}, x ∈ l → x ≤ l.foldr max 0
  | a :: l, x, hx => by
    rcases List.mem_cons.mp hx with rfl | hx
    · exact Nat.le_max_left _ _
    · exact Nat.le_trans (mem_le_foldr_max hx) (Nat.le_max_right _ _)

/-- Under the foreign-key invariant no activation row points at the fresh
id, so a freshly inserted key starts with a zero activation count. -/
theorem countActivations_freshKeyId {st : DbState}
    (hfk : activationsReferenceKeys st) :
    countActivations st (freshKeyId st) = 0 := by
  unfold countActivations
  rw [List.length_eq_zero, List.filter_eq_nil_iff]
  intro a ha
  obtain ⟨k, hk, heq⟩ := hfk a ha
  have hlt : k.id < freshKeyId st :=
    Nat.lt_succ_of_le (mem_le_foldr_max (List.mem_map_of_mem KeyRow.id hk))
  simp only [beq_iff_eq, heq]
  omega

/-- The generation loop preserves counter consistency: retries leave the
store alone and the successful insert adds a key with `used_devices = 0` and
no activations. -/
theorem generateKeyLoop_counterConsistent (now : Int) (gens : Nat → String)
    (fail : Nat → Bool) (d : Int) (maxd : Nat) (stt : String) :
    ∀ (attempts : List Nat) (st : DbState), activationsReferenceKeys st →
      counterConsistent st →
      counterConsistent (generateKeyLoop now gens fail d maxd stt attempts st).1
  | [], _, _, hcc => hcc
  | i :: rest, st, hfk, hcc => by
    unfold generateKeyLoop
    dsimp only
    split
    · exact hcc
    split
    · exact generateKeyLoop_counterConsistent now gens fail d maxd stt rest st hfk hcc
    · intro k' hk'
      simp only [List.mem_append, List.mem_singleton] at hk'
      rcases hk' with hk' | rfl
      · exact hcc k' hk'
      · exact (countActivations_freshKeyId hfk).symm

/-- Deleting one key's rows preserves counter consistency for the remaining
keys. -/
theorem counterConsistent_delete {st : DbState} {id0 : Nat}
    (hcc : counterConsistent st) :
    counterConsistent (deleteKeyEndpoint st id0).1 := by
  intro k' hk'
  simp only [deleteKeyEndpoint, List.mem_filter] at hk'
  obtain ⟨hk, hkeep⟩ := hk'
  have hne : k'.id ≠ id0 := by simpa using hkeep
  have : countActivations (deleteKeyEndpoint st id0).1 k'.id = countActivations st k'.id := by
    unfold countActivations deleteKeyEndpoint
    dsimp only
    rw [List.filter_filter]
    refine congrArg List.length (List.filter_congr fun a _ => ?_)
    by_cases h : a.key_id = k'.id
    · simp [h, hne]
    · simp [h]
  rw [this]
  exact hcc k' hk

/-- `POST /admin/cleanup` preserves counter consistency, given key ids are
unique (the `SERIAL PRIMARY KEY`): a surviving key's id cannot be among the
cascade-deleted ids, so its activation rows all survive. -/
theorem counterConsistent_adminCleanup {now : Int} {st : DbState}
    (hids : (st.keys.map KeyRow.id).Nodup)
    (hcc : counterConsistent st) :
    counterConsistent (adminCleanup now st) := by
  intro k' hk'
  simp only [adminCleanup, List.mem_filter] at hk'
  obtain ⟨hk, hkeep⟩ := hk'
  have hkexp : ¬ k'.expires_at < now := by simpa using hkeep
  have hforall : ∀ x ∈ st.keys, x.expires_at < now → ¬ x.id = k'.id := by
    intro x hx hxexp hxid
    have hxk : x = k' := List.inj_on_of_nodup_map hids hx hk hxid
    rw [hxk] at hxexp
    exact hkexp hxexp
  have : countActivations (adminCleanup now st) k'.id = countActivations st k'.id := by
    unfold countActivations adminCleanup
    dsimp only
    rw [List.filter_filter]
    refine congrArg List.length (List.filter_congr fun a _ => ?_)
    by_cases h : a.key_id = k'.id
    · simp [h]
      exact hforall
    · simp [h]
  rw [this]
  exact hcc k' hk

/-- Exhaustive description of the database states `POST /verifyKey` can
leave behind. -/
theorem verifyKey_state_cases (now : Int) (st : DbState) (key dev ip ua : String) :
    (verifyKey now st key dev ip ua).1 = st ∨
    (∃ kid a, (verifyKey now st key dev ip ua).1 =
      logKeyActivity (setKeyExpired st kid) kid a ip ua) ∨
    (∃ kid a, (verifyKey now st key dev ip ua).1 = logKeyActivity st kid a ip ua) := by
  unfold verifyKey
  split
  · exact Or.inl rfl
  split
  · exact Or.inl rfl
  rename_i kd hfind
  dsimp only
  split
  · exact Or.inr (Or.inl ⟨kd.id, _, rfl⟩)
  · exact Or.inr (Or.inr ⟨kd.id, _, rfl⟩)

/-- `/activateKey` preserves counter consistency. -/
theorem activateKey_counterConsistent {now : Int} {st : DbState} {key dev ip ua : String}
    (hcc : counterConsistent st) :
    counterConsistent (activateKey now st key dev ip ua).1 := by
  rcases activateKey_state_cases now st key dev ip ua with
    h | ⟨kd, _, h⟩ | ⟨kd, _, h⟩ | ⟨kd, _, _, _, h⟩ <;> rw [h]
  · exact hcc
  · exact counterConsistent_log (counterConsistent_setKeyExpired hcc)
  · exact counterConsistent_log hcc
  · exact counterConsistent_log (counterConsistent_insertIncrement hcc)

/-- `/verifyKey` preserves counter consistency. -/
theorem verifyKey_counterConsistent {now : Int} {st : DbState} {key dev ip ua : String}
    (hcc : counterConsistent st) :
    counterConsistent (verifyKey now st key dev ip ua).1 := by
  rcases verifyKey_state_cases now st key dev ip ua with
    h | ⟨kid, a, h⟩ | ⟨kid, a, h⟩ <;> rw [h]
  · exact hcc
  · exact counterConsistent_log (counterConsistent_setKeyExpired hcc)
  · exact counterConsistent_log hcc

/-- `PUT /admin/keys/:id` preserves counter consistency: no updatable field
touches `used_devices` or the activation rows. -/
theorem updateKey_counterConsistent {now : Int} {st : DbState} {id : Nat}
    {du : Option Int} {su : Option String} {mu : Option Nat}
    (hcc : counterConsistent st) :
    counterConsistent (updateKeyEndpoint now st id du su mu).1 := by
  unfold updateKeyEndpoint
  split
  · exact hcc
  split
  · refine counterConsistent_map ?_ ?_ hcc <;> intro k <;>
      rcases du with _ | dv <;> rcases su with _ | sv <;> rcases mu with _ | mv <;>
      by_cases h : k.id = id <;> simp [h, applyKeyUpdate]
  · exact hcc

/-- The Janitor's sweep preserves counter consistency. -/
theorem cleanupExpiredKeys_counterConsistent {now : Int} {st : DbState}
    (hcc : counterConsistent st) :
    counterConsistent (cleanupExpiredKeys now st) := by
  refine counterConsistent_map ?_ ?_ hcc <;> intro k <;> unfold sweepKey <;>
    by_cases h : k.expires_at < now ∧ k.status = "active" <;> simp [h]

/-- C10: starting from consistent stores (as created: `used_devices`
defaults to 0 with no activation rows), every endpoint of the service keeps
`keys.used_devices` equal to the number of `key_activations` rows of its key:
the activation insert and the counter increment move together, issuance
inserts a zero-counter key with no activations, and deletions (explicit or
cascade) remove a key's activation rows only together with the key. -/
theorem claim_C10_counter_consistency (now : Int) (st : DbState) (key dev ip ua : String)
    (gens : Nat → String) (fail : Nat → Bool) (d : Int) (maxd : Nat) (stt : String)
    (id : Nat) (du : Option Int) (su : Option String) (mu : Option Nat)
    (hids : (st.keys.map KeyRow.id).Nodup)
    (hfk : activationsReferenceKeys st)
    (hcc : counterConsistent st) :
    counterConsistent (activateKey now st key dev ip ua).1 ∧
    counterConsistent (verifyKey now st key dev ip ua).1 ∧
    counterConsistent (generateKeyEndpoint now gens fail st d maxd stt).1 ∧
    counterConsistent (updateKeyEndpoint now st id du su mu).1 ∧
    counterConsistent (deleteKeyEndpoint st id).1 ∧
    counterConsistent (adminCleanup now st) ∧
    counterConsistent (cleanupExpiredKeys now st) := by
  refine ⟨activateKey_counterConsistent hcc, verifyKey_counterConsistent hcc, ?_,
    updateKey_counterConsistent hcc, counterConsistent_delete hcc,
    counterConsistent_adminCleanup hids hcc, cleanupExpiredKeys_counterConsistent hcc⟩
  unfold generateKeyEndpoint
  split
  · exact hcc
  · exact generateKeyLoop_counterConsistent now gens fail d maxd stt _ st hfk hcc

/-- Witness for C10 at the concrete fixture store (`used_devices = 1`, one
activation row). -/
theorem claim_C10_counter_consistency_witness :
    counterConsistent (activateKey 5 stReact "KEYX" "device-B" "ip" "ua").1 ∧
    counterConsistent (verifyKey 5 stReact "KEYX" "device-B" "ip" "ua").1 ∧
    counterConsistent
      (generateKeyEndpoint 5 (fun _ => "NEWKEY") (fun _ => false) stReact 24 10 "active").1 ∧
    counterConsistent (updateKeyEndpoint 5 stReact 1 (some 48) none none).1 ∧
    counterConsistent (deleteKeyEndpoint stReact 1).1 ∧
    counterConsistent (adminCleanup 5 stReact) ∧
    counterConsistent (cleanupExpiredKeys 5 stReact) :=
  claim_C10_counter_consistency 5 stReact "KEYX" "device-B" "ip" "ua"
    (fun _ => "NEWKEY") (fun _ => false) 24 10 "active" 1 (some 48) none none
    (by decide) (by unfold activationsReferenceKeys; decide)
    (by unfold counterConsistent; decide)

end KmzGfx
